import Mathlib

/-!
Verification of the SafeScroll repository (src/agents.py, src/app.py,
src/generate_synthetic_data.py) against its natural-language specification.

The Python code is shallowly embedded:
* JSON values are the inductive `Json` (numbers are modelled as integers;
  floating point values are outside the model).  `dumps` models
  `json.dumps(..., ensure_ascii=False)` with the default separators
  `", "` and `": "`; `loads` models `json.loads` by a fuel-based
  recursive-descent parser over the characters of the input.
* The LLM endpoint is an oracle: each completion call is a value of
  `LLMOutcome` (successful reply text, raised exception, or a response
  object of an unexpected shape).
* `random` is an oracle stream `g : Nat → Nat` together with a cursor;
  each primitive (`random.random`, `random.choice`, `random.randint`,
  `random.sample`) consumes positions of the stream, in program order.
-/

/-- Decimal digit character, `Char.ofNat (48 + d)` for `d < 10`. -/
def digitChar (d : Nat) : Char := Char.ofNat (48 + d)

/-- Lowercase hexadecimal digit character (as produced by Python's
`\uXXXX` escapes). -/
def hexDigitChar (d : Nat) : Char :=
  if d < 10 then Char.ofNat (48 + d) else Char.ofNat (87 + d)

/-- Fuelled helper for `natDigits` (structural recursion on the fuel, so
that the definition reduces inside the kernel; any fuel at least `n`
computes the digits of `n`). -/
def natDigitsF : Nat → Nat → List Char
  | 0, n => [digitChar n]
  | fuel + 1, n =>
    if n < 10 then [digitChar n]
    else natDigitsF fuel (n / 10) ++ [digitChar (n % 10)]

/-- Decimal digits of a natural number, most significant first; models
Python's `repr` of a nonnegative `int`. -/
def natDigits (n : Nat) : List Char := natDigitsF n n

theorem natDigitsF_fuel_irrel :
    ∀ fuel fuel' n : Nat, n ≤ fuel → n ≤ fuel' → natDigitsF fuel n = natDigitsF fuel' n := by
  intro fuel
  induction fuel with
  | zero =>
    intro fuel' n h _
    have hn : n = 0 := by omega
    subst hn
    cases fuel' with
    | zero => rfl
    | succ f => simp [natDigitsF]
  | succ f ih =>
    intro fuel' n h h'
    cases fuel' with
    | zero =>
      have hn : n = 0 := by omega
      subst hn
      simp [natDigitsF]
    | succ f' =>
      simp only [natDigitsF]
      by_cases h10 : n < 10
      · simp [h10]
      · simp only [h10, if_false, ite_false]
        have hd : n / 10 ≤ f := by omega
        have hd' : n / 10 ≤ f' := by omega
        rw [ih f' (n / 10) hd hd']

/-- Unfolding equation for `natDigits`. -/
theorem natDigits_eq (n : Nat) :
    natDigits n = if n < 10 then [digitChar n] else natDigits (n / 10) ++ [digitChar (n % 10)] := by
  unfold natDigits
  cases hn : n with
  | zero => simp [natDigitsF]
  | succ m =>
    simp only [natDigitsF]
    by_cases h10 : m + 1 < 10
    · simp [h10]
    · simp only [h10, if_false, ite_false]
      have : (m + 1) / 10 ≤ m := by omega
      rw [natDigitsF_fuel_irrel m ((m + 1) / 10) ((m + 1) / 10) this (le_refl _)]

/-- Value of a decimal digit run, accumulated left to right. -/
def digitsToNat (ds : List Char) : Nat :=
  ds.foldl (fun a c => 10 * a + (c.toNat - 48)) 0

theorem natDigits_ne_nil (n : Nat) : natDigits n ≠ [] := by
  rw [natDigits_eq]
  split <;> simp

theorem digitChar_toNat (d : Nat) (h : d < 10) : (digitChar d).toNat = 48 + d := by
  interval_cases d <;> decide

theorem digitChar_isDigit (d : Nat) (h : d < 10) : (digitChar d).isDigit = true := by
  interval_cases d <;> decide

theorem natDigits_all_digits (n : Nat) : ∀ c ∈ natDigits n, c.isDigit = true := by
  induction n using Nat.strong_induction_on with
  | _ n ih =>
    rw [natDigits_eq]
    split
    next h => simpa using digitChar_isDigit n h
    next h =>
      intro c hc
      rcases List.mem_append.1 hc with h1 | h1
      · exact ih (n / 10) (Nat.div_lt_self (by omega) (by omega)) c h1
      · simp only [List.mem_singleton] at h1
        subst h1
        exact digitChar_isDigit (n % 10) (Nat.mod_lt _ (by omega))

theorem foldl_natDigits (n a : Nat) :
    (natDigits n).foldl (fun a c => 10 * a + (c.toNat - 48)) a =
      a * 10 ^ (natDigits n).length + n := by
  induction n using Nat.strong_induction_on generalizing a with
  | _ n ih =>
    rw [natDigits_eq]
    split
    next h =>
      simp [digitChar_toNat n h]
      omega
    next h =>
      rw [List.foldl_append, ih (n / 10) (Nat.div_lt_self (by omega) (by omega)) a]
      simp [digitChar_toNat (n % 10) (Nat.mod_lt _ (by omega)), pow_succ]
      ring_nf
      omega

theorem digitsToNat_natDigits (n : Nat) : digitsToNat (natDigits n) = n := by
  unfold digitsToNat
  rw [foldl_natDigits]
  simp

theorem natDigits_injective : Function.Injective natDigits := by
  intro a b h
  have := digitsToNat_natDigits a
  rw [h, digitsToNat_natDigits] at this
  omega

/-- Decimal string of a natural number; models Python `str(n)` / f-string
interpolation of a nonnegative `int`. -/
def natToStr (n : Nat) : String := String.mk (natDigits n)

/-! ## JSON values

Model of the Python JSON values handled by the repository: `None`, `bool`,
`int`, `str`, `list`, `dict` (string keys, insertion order preserved).
Floats are outside the model. -/

inductive Json where
  | null : Json
  | bool (b : Bool) : Json
  | num (i : Int) : Json
  | str (s : String) : Json
  | arr (elems : List Json) : Json
  | obj (members : List (String × Json)) : Json

/-- Escape of one character inside a JSON string literal, as emitted by
`json.dumps(..., ensure_ascii=False)`: only `"`, `\` and control
characters below `0x20` are escaped. -/
def escapeChar (c : Char) : List Char :=
  if c = '"' then ['\\', '"']
  else if c = '\\' then ['\\', '\\']
  else if c = '\n' then ['\\', 'n']
  else if c = '\t' then ['\\', 't']
  else if c = '\r' then ['\\', 'r']
  else if c.toNat = 8 then ['\\', 'b']
  else if c.toNat = 12 then ['\\', 'f']
  else if c.toNat < 32 then
    ['\\', 'u', '0', '0', hexDigitChar (c.toNat / 16), hexDigitChar (c.toNat % 16)]
  else [c]

/-- Escape of a whole character sequence. -/
def escString : List Char → List Char
  | [] => []
  | c :: cs => escapeChar c ++ escString cs

/-- Serialized JSON string literal (quotes included). -/
def serStringChars (s : String) : List Char :=
  '"' :: escString s.data ++ ['"']

/-- Serialized integer, as Python `repr` of an `int`. -/
def serIntChars (i : Int) : List Char :=
  if i < 0 then '-' :: natDigits i.natAbs else natDigits i.toNat

mutual

/-- Characters of `json.dumps` of a value (default separators `", "`, `": "`). -/
def serJsonChars : Json → List Char
  | .null => ['n', 'u', 'l', 'l']
  | .bool b => if b then ['t', 'r', 'u', 'e'] else ['f', 'a', 'l', 's', 'e']
  | .num i => serIntChars i
  | .str s => serStringChars s
  | .arr [] => ['[', ']']
  | .arr (x :: xs) => '[' :: (serJsonChars x ++ serArrTail xs) ++ [']']
  | .obj [] => ['{', '}']
  | .obj ((k, v) :: xs) =>
      '{' :: (serStringChars k ++ ':' :: ' ' :: serJsonChars v ++ serObjTail xs) ++ ['}']

/-- Serialization of array elements after the first (each preceded by `", "`). -/
def serArrTail : List Json → List Char
  | [] => []
  | x :: xs => ',' :: ' ' :: serJsonChars x ++ serArrTail xs

/-- Serialization of object members after the first (each preceded by `", "`). -/
def serObjTail : List (String × Json) → List Char
  | [] => []
  | (k, v) :: xs => ',' :: ' ' :: serStringChars k ++ ':' :: ' ' :: serJsonChars v ++ serObjTail xs

end

/-- `json.dumps` (with `ensure_ascii=False`, the form the agents use on
their inputs), modelled as a string. -/
def dumps (j : Json) : String := String.mk (serJsonChars j)

mutual

/-- Fuel bound for the parser: an upper bound on the recursion depth
`parseValue` needs on the serialization of `j`. -/
def sizeJ : Json → Nat
  | .null => 1
  | .bool _ => 1
  | .num _ => 1
  | .str _ => 1
  | .arr l => 1 + sizeL l
  | .obj kvs => 1 + sizeM kvs

def sizeL : List Json → Nat
  | [] => 0
  | x :: xs => 1 + sizeJ x + sizeL xs

def sizeM : List (String × Json) → Nat
  | [] => 0
  | (_, v) :: xs => 1 + sizeJ v + sizeM xs

end

theorem sizeJ_pos (j : Json) : 1 ≤ sizeJ j := by
  cases j <;> simp [sizeJ]

/-! ## A model of `json.loads`

Recursive-descent parser over the characters of the input, with explicit
fuel (any fuel at least `sizeJ` of the encoded value suffices; `loads`
supplies `length + 1`).  Restrictions of the model, both irrelevant to the
repository's behavior on the values covered by `Json`: number tokens are
parsed as integers (no fraction/exponent part, and leading zeros are not
rejected), and `\uXXXX` escapes are decoded as single code points
(surrogate pairs are not combined). -/

/-- JSON whitespace (the characters `json.loads` skips between tokens). -/
def isWsChar (c : Char) : Bool :=
  c = ' ' || c = '\t' || c = '\n' || c = '\r'

/-- Drop leading JSON whitespace. -/
def skipWs : List Char → List Char
  | [] => []
  | c :: r => if isWsChar c then skipWs r else c :: r

/-- Consume an expected literal character sequence. -/
def dropLit : List Char → List Char → Option (List Char)
  | [], s => some s
  | c :: cs, d :: s => if c = d then dropLit cs s else none
  | _ :: _, [] => none

/-- Value of one hexadecimal digit character. -/
def hexVal (c : Char) : Option Nat :=
  let n := c.toNat
  if 48 ≤ n ∧ n ≤ 57 then some (n - 48)
  else if 97 ≤ n ∧ n ≤ 102 then some (n - 87)
  else if 65 ≤ n ∧ n ≤ 70 then some (n - 55)
  else none

/-- Parse the body of a JSON string literal (the opening quote already
consumed), returning the decoded characters and the rest of the input. -/
def parseStringBody : List Char → Option (List Char × List Char)
  | [] => none
  | c :: r =>
    if c = '"' then some ([], r)
    else if c = '\\' then
      match r with
      | [] => none
      | e :: r2 =>
        if e = '"' then (parseStringBody r2).map (fun p => ('"' :: p.1, p.2))
        else if e = '\\' then (parseStringBody r2).map (fun p => ('\\' :: p.1, p.2))
        else if e = '/' then (parseStringBody r2).map (fun p => ('/' :: p.1, p.2))
        else if e = 'n' then (parseStringBody r2).map (fun p => ('\n' :: p.1, p.2))
        else if e = 't' then (parseStringBody r2).map (fun p => ('\t' :: p.1, p.2))
        else if e = 'r' then (parseStringBody r2).map (fun p => ('\r' :: p.1, p.2))
        else if e = 'b' then (parseStringBody r2).map (fun p => (Char.ofNat 8 :: p.1, p.2))
        else if e = 'f' then (parseStringBody r2).map (fun p => (Char.ofNat 12 :: p.1, p.2))
        else if e = 'u' then
          match r2 with
          | h1 :: h2 :: h3 :: h4 :: r3 =>
            match hexVal h1, hexVal h2, hexVal h3, hexVal h4 with
            | some x1, some x2, some x3, some x4 =>
              (parseStringBody r3).map
                (fun p => (Char.ofNat (((x1 * 16 + x2) * 16 + x3) * 16 + x4) :: p.1, p.2))
            | _, _, _, _ => none
          | _ => none
        else none
    else if c.toNat < 32 then none
    else (parseStringBody r).map (fun p => (c :: p.1, p.2))

/-- Parse a maximal nonempty run of decimal digits. -/
def parseNatPart (s : List Char) : Option (Nat × List Char) :=
  let ds := s.takeWhile Char.isDigit
  if ds.isEmpty then none else some (digitsToNat ds, s.dropWhile Char.isDigit)

/-- Parse a JSON number token (integers only in this model). -/
def parseNumber : List Char → Option (Json × List Char)
  | [] => none
  | c :: r =>
    if c = '-' then (parseNatPart r).map (fun p => (Json.num (-(p.1 : Int)), p.2))
    else (parseNatPart (c :: r)).map (fun p => (Json.num (p.1 : Int), p.2))

mutual

/-- Parse one JSON value (leading whitespace allowed). -/
def parseValue : Nat → List Char → Option (Json × List Char)
  | 0, _ => none
  | fuel + 1, s =>
    match skipWs s with
    | [] => none
    | c :: r =>
      if c = '{' then
        match skipWs r with
        | [] => none
        | c2 :: r2 =>
          if c2 = '}' then some (Json.obj [], r2)
          else (parseMembers fuel (c2 :: r2)).map (fun p => (Json.obj p.1, p.2))
      else if c = '[' then
        match skipWs r with
        | [] => none
        | c2 :: r2 =>
          if c2 = ']' then some (Json.arr [], r2)
          else (parseElems fuel (c2 :: r2)).map (fun p => (Json.arr p.1, p.2))
      else if c = '"' then
        (parseStringBody r).map (fun p => (Json.str (String.mk p.1), p.2))
      else if c = 't' then (dropLit ['r', 'u', 'e'] r).map (fun rr => (Json.bool true, rr))
      else if c = 'f' then (dropLit ['a', 'l', 's', 'e'] r).map (fun rr => (Json.bool false, rr))
      else if c = 'n' then (dropLit ['u', 'l', 'l'] r).map (fun rr => (Json.null, rr))
      else parseNumber (c :: r)

/-- Parse the elements of a nonempty JSON array, up to and including the
closing bracket. -/
def parseElems : Nat → List Char → Option (List Json × List Char)
  | 0, _ => none
  | fuel + 1, s =>
    match parseValue fuel s with
    | none => none
    | some (j, r) =>
      match skipWs r with
      | [] => none
      | c :: r2 =>
        if c = ',' then (parseElems fuel r2).map (fun p => (j :: p.1, p.2))
        else if c = ']' then some ([j], r2)
        else none

/-- Parse the members of a nonempty JSON object, up to and including the
closing brace. -/
def parseMembers : Nat → List Char → Option (List (String × Json) × List Char)
  | 0, _ => none
  | fuel + 1, s =>
    match skipWs s with
    | [] => none
    | c :: r =>
      if c = '"' then
        match parseStringBody r with
        | none => none
        | some (k, r1) =>
          match skipWs r1 with
          | [] => none
          | c2 :: r2 =>
            if c2 = ':' then
              match parseValue fuel r2 with
              | none => none
              | some (v, r3) =>
                match skipWs r3 with
                | [] => none
                | c3 :: r4 =>
                  if c3 = ',' then
                    (parseMembers fuel r4).map (fun p => ((String.mk k, v) :: p.1, p.2))
                  else if c3 = '}' then some ([(String.mk k, v)], r4)
                  else none
            else none
      else none

end

/-- Model of `json.loads`: parse one value, allow surrounding whitespace,
reject any other trailing input; `none` models a raised exception. -/
def loads (s : String) : Option Json :=
  match parseValue (s.data.length + 1) s.data with
  | some (j, r) => if (skipWs r).isEmpty then some j else none
  | none => none

example : loads (String.mk ['n', 'u', 'l', 'l']) = some Json.null := rfl
example : loads (String.mk ['1', '2']) = some (Json.num 12) := rfl
example : loads (String.mk ['h', 'i']) = none := rfl

/-! ## Round trip: the parser inverts the serializer -/

theorem mk_data (s : String) : String.mk s.data = s := rfl

theorem skipWs_ws_append (ws s : List Char) (h : ∀ c ∈ ws, isWsChar c = true) :
    skipWs (ws ++ s) = skipWs s := by
  induction ws with
  | nil => rfl
  | cons c t ih =>
    have hc : isWsChar c = true := h c (by simp)
    simp only [List.cons_append, skipWs, hc, if_true]
    exact ih (fun d hd => h d (by simp [hd]))

theorem skipWs_cons_not (c : Char) (r : List Char) (h : isWsChar c = false) :
    skipWs (c :: r) = c :: r := by
  simp [skipWs, h]

theorem hexVal_hexDigitChar (m : Nat) (h : m < 16) : hexVal (hexDigitChar m) = some m := by
  interval_cases m <;> decide

theorem isDigit_ne (c d : Char) (h : c.isDigit = true) (hd : d.isDigit = false) : c ≠ d := by
  intro e
  subst e
  rw [h] at hd
  cases hd

theorem isWsChar_of_digit (c : Char) (h : c.isDigit = true) : isWsChar c = false := by
  unfold isWsChar
  have h1 : c ≠ ' ' := isDigit_ne c ' ' h (by decide)
  have h2 : c ≠ '\t' := isDigit_ne c '\t' h (by decide)
  have h3 : c ≠ '\n' := isDigit_ne c '\n' h (by decide)
  have h4 : c ≠ '\r' := isDigit_ne c '\r' h (by decide)
  simp [h1, h2, h3, h4]

theorem parseStringBody_escString (cs rest : List Char) :
    parseStringBody (escString cs ++ '"' :: rest) = some (cs, rest) := by
  induction cs with
  | nil =>
    show parseStringBody ('"' :: rest) = _
    rw [parseStringBody.eq_def]
    simp
  | cons c cs ih =>
    show parseStringBody ((escapeChar c ++ escString cs) ++ '"' :: rest) = _
    rw [List.append_assoc]
    unfold escapeChar
    by_cases h1 : c = '"'
    · subst h1
      simp only [if_true, List.cons_append]
      rw [parseStringBody.eq_def]
      simp [ih]
    by_cases h2 : c = '\\'
    · subst h2
      simp only [h1, if_false, if_true, ite_true, ite_false, List.cons_append]
      rw [parseStringBody.eq_def]
      simp [ih]
    by_cases h3 : c = '\n'
    · subst h3
      simp only [h1, h2, if_false, if_true, ite_true, ite_false, List.cons_append]
      rw [parseStringBody.eq_def]
      simp [ih]
    by_cases h4 : c = '\t'
    · subst h4
      simp only [h1, h2, h3, if_false, if_true, ite_true, ite_false, List.cons_append]
      rw [parseStringBody.eq_def]
      simp [ih]
    by_cases h5 : c = '\r'
    · subst h5
      simp only [h1, h2, h3, h4, if_false, if_true, ite_true, ite_false, List.cons_append]
      rw [parseStringBody.eq_def]
      simp [ih]
    by_cases h6 : c.toNat = 8
    · have hc : c = Char.ofNat 8 := by rw [← h6, Char.ofNat_toNat]
      simp only [h1, h2, h3, h4, h5, h6, if_false, if_true, ite_true, ite_false,
        List.cons_append]
      rw [parseStringBody.eq_def]
      simp [ih, hc]
    by_cases h7 : c.toNat = 12
    · have hc : c = Char.ofNat 12 := by rw [← h7, Char.ofNat_toNat]
      simp only [h1, h2, h3, h4, h5, h6, h7, if_false, if_true, ite_true, ite_false,
        List.cons_append]
      rw [parseStringBody.eq_def]
      simp [ih, hc]
    by_cases h8 : c.toNat < 32
    · have hd1 : hexVal (hexDigitChar (c.toNat / 16)) = some (c.toNat / 16) :=
        hexVal_hexDigitChar _ (by omega)
      have hd2 : hexVal (hexDigitChar (c.toNat % 16)) = some (c.toNat % 16) :=
        hexVal_hexDigitChar _ (by omega)
      have hval : Char.ofNat (c.toNat / 16 * 16 + c.toNat % 16) = c := by
        rw [show c.toNat / 16 * 16 + c.toNat % 16 = c.toNat by omega, Char.ofNat_toNat]
      have h0 : hexVal '0' = some 0 := rfl
      simp only [h1, h2, h3, h4, h5, h6, h7, h8, if_false, if_true, ite_true, ite_false,
        List.cons_append, List.nil_append]
      rw [parseStringBody.eq_def]
      simp [h0, hd1, hd2, ih, hval]
    · simp only [h1, h2, h3, h4, h5, h6, h7, h8, if_false, ite_false, List.cons_append,
        List.nil_append]
      rw [parseStringBody.eq_def]
      simp [h1, h2, h8, ih]

theorem takeWhile_digits (ds rest : List Char) (hds : ∀ c ∈ ds, c.isDigit = true)
    (hrest : ∀ c, rest.head? = some c → c.isDigit = false) :
    (ds ++ rest).takeWhile Char.isDigit = ds ∧ (ds ++ rest).dropWhile Char.isDigit = rest := by
  induction ds with
  | nil =>
    cases rest with
    | nil => simp
    | cons c t =>
      have := hrest c (by simp)
      simp [List.takeWhile_cons, List.dropWhile_cons, this]
  | cons c t ih =>
    have hc : c.isDigit = true := hds c (by simp)
    have ⟨ih1, ih2⟩ := ih (fun d hd => hds d (by simp [hd]))
    simp [List.takeWhile_cons, List.dropWhile_cons, hc, ih1, ih2]

theorem parseNatPart_natDigits (n : Nat) (rest : List Char)
    (hrest : ∀ c, rest.head? = some c → c.isDigit = false) :
    parseNatPart (natDigits n ++ rest) = some (n, rest) := by
  have ⟨h1, h2⟩ := takeWhile_digits (natDigits n) rest (natDigits_all_digits n) hrest
  unfold parseNatPart
  rw [h1, h2]
  have hne : natDigits n ≠ [] := natDigits_ne_nil n
  simp [List.isEmpty_iff, hne, digitsToNat_natDigits]

theorem parseNumber_serInt (i : Int) (rest : List Char)
    (hrest : ∀ c, rest.head? = some c → c.isDigit = false) :
    parseNumber (serIntChars i ++ rest) = some (Json.num i, rest) := by
  unfold serIntChars
  by_cases hi : i < 0
  · simp only [hi, if_true, List.cons_append]
    have hneg : -((i.natAbs : Nat) : Int) = i := by omega
    simp [parseNumber, parseNatPart_natDigits i.natAbs rest hrest, hneg]
    rw [abs_of_neg hi, neg_neg]
  · simp only [hi, if_false]
    obtain ⟨c, t, hct⟩ : ∃ c t, natDigits i.toNat = c :: t := by
      cases h : natDigits i.toNat with
      | nil => exact absurd h (natDigits_ne_nil _)
      | cons c t => exact ⟨c, t, rfl⟩
    have hcd : c.isDigit = true := natDigits_all_digits i.toNat c (by rw [hct]; simp)
    have hcne : c ≠ '-' := isDigit_ne c '-' hcd (by decide)
    rw [hct, List.cons_append]
    simp only [parseNumber, hcne, if_false]
    have hpos : ((i.toNat : Nat) : Int) = i := by omega
    rw [← List.cons_append, ← hct, parseNatPart_natDigits i.toNat rest hrest]
    simp [hpos]

theorem serIntChars_shape (i : Int) : ∃ c t, serIntChars i = c :: t ∧ isWsChar c = false ∧
    c ≠ '{' ∧ c ≠ '[' ∧ c ≠ '"' ∧ c ≠ 't' ∧ c ≠ 'f' ∧ c ≠ 'n' ∧ c ≠ ']' ∧ c ≠ '}' ∧
    c ≠ ',' := by
  unfold serIntChars
  by_cases hi : i < 0
  · exact ⟨'-', natDigits i.natAbs, by simp [hi], by decide, by decide, by decide, by decide,
      by decide, by decide, by decide, by decide, by decide, by decide⟩
  · obtain ⟨c, t, hct⟩ : ∃ c t, natDigits i.toNat = c :: t := by
      cases h : natDigits i.toNat with
      | nil => exact absurd h (natDigits_ne_nil _)
      | cons c t => exact ⟨c, t, rfl⟩
    have hcd : c.isDigit = true := natDigits_all_digits i.toNat c (by rw [hct]; simp)
    refine ⟨c, t, by simp [hi, hct], isWsChar_of_digit c hcd, ?_, ?_, ?_, ?_, ?_, ?_, ?_, ?_, ?_⟩
    all_goals exact isDigit_ne c _ hcd (by decide)

theorem serJsonChars_shape (j : Json) : ∃ c t, serJsonChars j = c :: t ∧
    isWsChar c = false ∧ c ≠ ']' ∧ c ≠ '}' ∧ c ≠ ',' := by
  cases j with
  | null => exact ⟨'n', _, rfl, by decide, by decide, by decide, by decide⟩
  | bool b =>
    cases b
    · exact ⟨'f', _, rfl, by decide, by decide, by decide, by decide⟩
    · exact ⟨'t', _, rfl, by decide, by decide, by decide, by decide⟩
  | num i =>
    obtain ⟨c, t, hct, hw, _, _, _, _, _, _, h1, h2, h3⟩ := serIntChars_shape i
    exact ⟨c, t, by simp [serJsonChars, hct], hw, h1, h2, h3⟩
  | str s => exact ⟨'"', _, rfl, by decide, by decide, by decide, by decide⟩
  | arr l =>
    cases l with
    | nil => exact ⟨'[', _, rfl, by decide, by decide, by decide, by decide⟩
    | cons x xs => exact ⟨'[', _, rfl, by decide, by decide, by decide, by decide⟩
  | obj kvs =>
    cases kvs with
    | nil => exact ⟨'{', _, rfl, by decide, by decide, by decide, by decide⟩
    | cons kv xs =>
      obtain ⟨k, v⟩ := kv
      exact ⟨'{', _, rfl, by decide, by decide, by decide, by decide⟩

theorem headDigit_arrTail (xs : List Json) (rest : List Char) :
    ∀ c, (serArrTail xs ++ ']' :: rest).head? = some c → c.isDigit = false := by
  cases xs with
  | nil => intro c hc; simp [serArrTail] at hc; subst hc; decide
  | cons y ys => intro c hc; simp [serArrTail] at hc; subst hc; decide

theorem headDigit_objTail (xs : List (String × Json)) (rest : List Char) :
    ∀ c, (serObjTail xs ++ '}' :: rest).head? = some c → c.isDigit = false := by
  cases xs with
  | nil => intro c hc; simp [serObjTail] at hc; subst hc; decide
  | cons kv ys =>
    obtain ⟨k, v⟩ := kv
    intro c hc; simp [serObjTail] at hc; subst hc; decide

theorem rt_main : ∀ fuel : Nat,
    (∀ j ws rest, (∀ c ∈ ws, isWsChar c = true) →
      (∀ c, rest.head? = some c → c.isDigit = false) → sizeJ j ≤ fuel →
      parseValue fuel (ws ++ (serJsonChars j ++ rest)) = some (j, rest)) ∧
    (∀ x xs ws rest, (∀ c ∈ ws, isWsChar c = true) → sizeL (x :: xs) ≤ fuel →
      parseElems fuel (ws ++ (serJsonChars x ++ (serArrTail xs ++ ']' :: rest))) =
        some (x :: xs, rest)) ∧
    (∀ k v xs ws rest, (∀ c ∈ ws, isWsChar c = true) → sizeM ((k, v) :: xs) ≤ fuel →
      parseMembers fuel
          (ws ++ (serStringChars k ++ ':' :: ' ' :: serJsonChars v ++
            (serObjTail xs ++ '}' :: rest))) =
        some ((k, v) :: xs, rest)) := by
  intro fuel
  induction fuel with
  | zero =>
    refine ⟨?_, ?_, ?_⟩
    · intro j _ _ _ _ hsz
      have := sizeJ_pos j
      omega
    · intro x xs _ _ _ hsz
      have := sizeJ_pos x
      simp [sizeL] at hsz
    · intro k v xs _ _ _ hsz
      have := sizeJ_pos v
      simp [sizeM] at hsz
  | succ f ih =>
    obtain ⟨ihV, ihE, ihM⟩ := ih
    refine ⟨?_, ?_, ?_⟩
    · -- parseValue
      intro j ws rest hws hrest hsz
      simp only [parseValue]
      rw [skipWs_ws_append ws _ hws]
      cases j with
      | null =>
        simp only [serJsonChars, List.cons_append]
        rw [skipWs_cons_not _ _ (by decide)]
        simp [dropLit]
      | bool b =>
        cases b
        · simp only [serJsonChars, if_false, Bool.false_eq_true, ite_false, List.cons_append]
          rw [skipWs_cons_not _ _ (by decide)]
          simp [dropLit]
        · simp only [serJsonChars, if_true, ite_true, List.cons_append]
          rw [skipWs_cons_not _ _ (by decide)]
          simp [dropLit]
      | num i =>
        obtain ⟨c, t, hct, hw, hc1, hc2, hc3, hc4, hc5, hc6, _, _, _⟩ := serIntChars_shape i
        simp only [serJsonChars]
        rw [hct, List.cons_append, skipWs_cons_not _ _ hw]
        simp only [hc1, hc2, hc3, hc4, hc5, hc6, if_false, ite_false]
        rw [← List.cons_append, ← hct]
        exact parseNumber_serInt i rest hrest
      | str s =>
        simp only [serJsonChars, serStringChars, List.cons_append]
        rw [skipWs_cons_not _ _ (by decide)]
        simp only [List.append_assoc, List.cons_append, List.nil_append]
        simp [parseStringBody_escString]
      | arr l =>
        cases l with
        | nil =>
          simp only [serJsonChars, List.cons_append]
          rw [skipWs_cons_not _ _ (by decide)]
          simp [skipWs, isWsChar]
        | cons x xs =>
          obtain ⟨c, t, hct, hw, hbr1, hbr2, _⟩ := serJsonChars_shape x
          simp only [serJsonChars, List.cons_append, List.append_assoc, List.nil_append]
          rw [skipWs_cons_not '[' _ (by decide)]
          simp only [show ¬(('[' : Char) = '{') by decide, if_false, ite_false,
            show (('[' : Char) = '[') = True by simp, if_true, ite_true]
          rw [hct, List.cons_append, skipWs_cons_not _ _ hw]
          simp only [hbr1, if_false, ite_false]
          rw [← List.cons_append, ← hct]
          have hszE : sizeL (x :: xs) ≤ f := by simp [sizeJ] at hsz; omega
          have := ihE x xs [] rest (by simp) hszE
          simp only [List.nil_append] at this
          rw [this]
          simp
      | obj kvs =>
        cases kvs with
        | nil =>
          simp only [serJsonChars, List.cons_append]
          rw [skipWs_cons_not _ _ (by decide)]
          simp [skipWs, isWsChar]
        | cons kv xs =>
          obtain ⟨k, v⟩ := kv
          simp only [serJsonChars, serStringChars, List.cons_append, List.append_assoc,
            List.nil_append]
          rw [skipWs_cons_not '{' _ (by decide)]
          simp only [show (('{' : Char) = '{') = True by simp, if_true, ite_true]
          rw [skipWs_cons_not '"' _ (by decide)]
          simp only [show ¬(('"' : Char) = '}') by decide, if_false, ite_false]
          have hszM : sizeM ((k, v) :: xs) ≤ f := by simp [sizeJ] at hsz; omega
          have := ihM k v xs [] rest (by simp) hszM
          simp only [List.nil_append, serStringChars, List.cons_append, List.append_assoc]
            at this
          rw [this]
          simp
    · -- parseElems
      intro x xs ws rest hws hsz
      simp only [parseElems]
      have hszx : sizeJ x ≤ f := by simp [sizeL] at hsz; omega
      rw [ihV x ws (serArrTail xs ++ ']' :: rest) hws (headDigit_arrTail xs rest) hszx]
      cases xs with
      | nil =>
        simp only [serArrTail, List.nil_append]
        rw [skipWs_cons_not _ _ (by decide)]
        simp
      | cons y ys =>
        simp only [serArrTail, List.cons_append, List.append_assoc]
        rw [skipWs_cons_not _ _ (by decide)]
        simp only [show ((',' : Char) = ',') = True by simp, if_true, ite_true]
        have hszy : sizeL (y :: ys) ≤ f := by
          have := sizeJ_pos x
          simp [sizeL] at hsz ⊢
          omega
        have := ihE y ys [' '] rest (by decide) hszy
        simp only [List.singleton_append, List.cons_append, List.append_assoc,
          List.nil_append] at this
        rw [this]
        simp
    · -- parseMembers
      intro k v xs ws rest hws hsz
      simp only [parseMembers]
      rw [show ws ++ (serStringChars k ++ ':' :: ' ' :: serJsonChars v ++
          (serObjTail xs ++ '}' :: rest)) =
          ws ++ ('"' :: (escString k.data ++
            '"' :: (':' :: ' ' :: (serJsonChars v ++ (serObjTail xs ++ '}' :: rest))))) by
        simp [serStringChars, List.append_assoc]]
      rw [skipWs_ws_append ws _ hws, skipWs_cons_not _ _ (by decide)]
      simp only [show (('"' : Char) = '"') = True by simp, if_true, ite_true]
      rw [parseStringBody_escString]
      simp only [skipWs_cons_not ':' _ (by decide),
        show ((':' : Char) = ':') = True by simp, if_true, ite_true]
      have hszv : sizeJ v ≤ f := by simp [sizeM] at hsz; omega
      have hv := ihV v [' '] (serObjTail xs ++ '}' :: rest)
        (by decide) (headDigit_objTail xs rest) hszv
      simp only [List.singleton_append] at hv
      rw [hv]
      cases xs with
      | nil =>
        simp only [serObjTail, List.nil_append]
        rw [skipWs_cons_not _ _ (by decide)]
        simp [mk_data]
      | cons kv2 ys =>
        obtain ⟨k2, v2⟩ := kv2
        simp only [serObjTail, List.cons_append, List.append_assoc]
        rw [skipWs_cons_not _ _ (by decide)]
        simp only [show ¬((',' : Char) = ':') by decide,
          show ((',' : Char) = ',') = True by simp, if_true, ite_true, if_false, ite_false]
        have hszy : sizeM ((k2, v2) :: ys) ≤ f := by
          have := sizeJ_pos v
          simp [sizeM] at hsz ⊢
          omega
        have := ihM k2 v2 ys [' '] rest (by decide) hszy
        simp only [List.singleton_append, List.cons_append, List.append_assoc,
          List.nil_append] at this
        rw [this]
        simp [mk_data]

mutual

theorem sizeJ_le_length : ∀ j : Json, sizeJ j ≤ (serJsonChars j).length
  | .null => by simp [sizeJ, serJsonChars]
  | .bool b => by cases b <;> simp [sizeJ, serJsonChars]
  | .num i => by
    have h := natDigits_ne_nil i.natAbs
    have h2 := natDigits_ne_nil i.toNat
    have h3 : 1 ≤ (natDigits i.natAbs).length := by
      cases hn : natDigits i.natAbs
      · exact absurd hn h
      · simp
    have h4 : 1 ≤ (natDigits i.toNat).length := by
      cases hn : natDigits i.toNat
      · exact absurd hn h2
      · simp
    simp only [sizeJ, serJsonChars, serIntChars]
    split <;> simp <;> omega
  | .str s => by simp [sizeJ, serJsonChars, serStringChars]
  | .arr [] => by simp [sizeJ, sizeL, serJsonChars]
  | .arr (x :: xs) => by
    have h1 := sizeJ_le_length x
    have h2 := sizeL_le_length xs
    simp only [sizeJ, sizeL, serJsonChars]
    simp
    omega
  | .obj [] => by simp [sizeJ, sizeM, serJsonChars]
  | .obj ((k, v) :: xs) => by
    have h1 := sizeJ_le_length v
    have h2 := sizeM_le_length xs
    simp only [sizeJ, sizeM, serJsonChars]
    simp
    omega

theorem sizeL_le_length : ∀ l : List Json, sizeL l ≤ (serArrTail l).length
  | [] => by simp [sizeL, serArrTail]
  | x :: xs => by
    have h1 := sizeJ_le_length x
    have h2 := sizeL_le_length xs
    simp only [sizeL, serArrTail]
    simp
    omega

theorem sizeM_le_length : ∀ l : List (String × Json), sizeM l ≤ (serObjTail l).length
  | [] => by simp [sizeM, serObjTail]
  | (k, v) :: xs => by
    have h1 := sizeJ_le_length v
    have h2 := sizeM_le_length xs
    simp only [sizeM, serObjTail]
    simp
    omega

end

/-- `json.loads` inverts `json.dumps` on every modelled value. -/
theorem loads_dumps (j : Json) : loads (dumps j) = some j := by
  unfold loads dumps
  have hfuel : sizeJ j ≤ (serJsonChars j).length + 1 := by
    have := sizeJ_le_length j
    omega
  have h := (rt_main ((serJsonChars j).length + 1)).1 j [] []
    (by simp) (by simp) hfuel
  simp only [List.nil_append, List.append_nil] at h
  simp only [String.data]
  rw [h]
  simp [skipWs]

theorem serJsonChars_injective : Function.Injective serJsonChars := by
  intro a b h
  have ha := loads_dumps a
  have hb := loads_dumps b
  unfold dumps at ha hb
  rw [h] at ha
  rw [ha] at hb
  exact Option.some.inj hb

instance : DecidableEq Json := fun a b =>
  decidable_of_iff (serJsonChars a = serJsonChars b)
    ⟨fun h => serJsonChars_injective h, congrArg serJsonChars⟩

/-! ## src/agents.py: `_run_json_agent` and the five agents

The completion endpoint is external; one call is summarized by an
`LLMOutcome`: the call raised an exception, the response object did not
have the `choices[0].message.content` shape, or it produced a textual
reply. -/

inductive LLMOutcome where
  | raised (msg : String) : LLMOutcome
  | badShape : LLMOutcome
  | reply (content : String) : LLMOutcome

/-- Model of Python `content.rfind("{")`: index of the last `'{'`,
`none` for `-1`. -/
def rfindBrace : List Char → Option Nat
  | [] => none
  | c :: r =>
    match rfindBrace r with
    | some i => some (i + 1)
    | none => if c = '{' then some 0 else none

/-- Model of `_run_json_agent` (src/agents.py lines 19-57) as a function of
the completion outcome.  The returned `Option Json` is the Python return
value, `none` standing for Python `None`: when the strict parse fails and
the reply contains no `'{'`, the inner `try` block completes without
executing any `return`, so the function falls through and returns `None`. -/
def run_json_agent (o : LLMOutcome) : Option Json :=
  match o with
  | .raised e => some (Json.obj [("error", Json.str ("LLM request failed: " ++ e))])
  | .badShape => some (Json.obj [("error", Json.str "unexpected LLM response format")])
  | .reply content =>
    match loads content with
    | some j => some j
    | none =>
      match rfindBrace content.data with
      | some idx =>
        match loads (String.mk (content.data.drop idx)) with
        | some j => some j
        | none =>
          some (Json.obj [("error", Json.str "failed to parse JSON"), ("raw", Json.str content)])
      | none => none

theorem rfindBrace_of_not_mem (u : List Char) (h : '{' ∉ u) : rfindBrace u = none := by
  induction u with
  | nil => rfl
  | cons c r ih =>
    have hc : c ≠ '{' := by intro e; exact h (by simp [e])
    have hr : '{' ∉ r := by intro e; exact h (by simp [e])
    simp [rfindBrace, ih hr, hc]

theorem rfindBrace_append (t w : List Char) (h : '{' ∉ w) :
    rfindBrace (t ++ '{' :: w) = some t.length := by
  induction t with
  | nil => simp [rfindBrace, rfindBrace_of_not_mem w h]
  | cons c r ih => simp [rfindBrace, ih]

theorem serJsonChars_obj_head (kvs : List (String × Json)) :
    ∃ w, serJsonChars (Json.obj kvs) = '{' :: w := by
  cases kvs with
  | nil => exact ⟨['}'], rfl⟩
  | cons kv xs =>
    obtain ⟨k, v⟩ := kv
    exact ⟨_, rfl⟩

/-- C1: evaluation of `_run_json_agent` at the failing reply `"hello"`:
the strict parse raises, `rfind` returns `-1`, the fallback `if` body is
skipped, both `except` bodies stay unexecuted, and the function returns
Python `None` — not a dict, contradicting the claim, the docstring
("Returns an empty dict on parse failure") and the `-> Dict` annotation. -/
theorem c1_run_json_agent_returns_none_on_braceless_reply :
    run_json_agent (.reply "hello") = none := by decide

/-- C2 (counterexample): a reply that is exactly a well-formed JSON object
surrounded by extra text on both sides.  The fallback extraction takes the
substring from the last `'{'`, which still carries the trailing `" y"`, so
`json.loads` fails again and the function returns the inline error object,
not the embedded object. -/
theorem c2_counterexample :
    ("x \x7b\"a\": 1\x7d y" : String) =
      String.mk ("x ".data ++ serJsonChars (Json.obj [("a", Json.num 1)]) ++ " y".data) ∧
    run_json_agent (.reply "x \x7b\"a\": 1\x7d y") =
      some (Json.obj [("error", Json.str "failed to parse JSON"),
        ("raw", Json.str "x \x7b\"a\": 1\x7d y")]) ∧
    Json.obj [("error", Json.str "failed to parse JSON"),
        ("raw", Json.str "x \x7b\"a\": 1\x7d y")] ≠
      Json.obj [("a", Json.num 1)] := by
  refine ⟨by decide, by decide, by decide⟩

/-- C2 (amended): the fallback extraction recovers the embedded object
when the strict whole-reply parse fails, the object ends the reply (no
trailing text) and the object's serialization contains no `'{'` beyond its
opening brace (no nested object and no `'{'` inside its strings). -/
theorem c2_amended_fallback_recovers_suffix_object (t : List Char)
    (kvs : List (String × Json))
    (h1 : '{' ∉ (serJsonChars (Json.obj kvs)).drop 1)
    (h2 : loads (String.mk (t ++ serJsonChars (Json.obj kvs))) = none) :
    run_json_agent (.reply (String.mk (t ++ serJsonChars (Json.obj kvs)))) =
      some (Json.obj kvs) := by
  obtain ⟨w, hw⟩ := serJsonChars_obj_head kvs
  have hnw : '{' ∉ w := by
    rw [hw] at h1
    simpa using h1
  simp only [run_json_agent]
  rw [h2]
  rw [hw, rfindBrace_append t w hnw]
  have hd : List.drop t.length (t ++ '{' :: w) = '{' :: w := List.drop_left t ('{' :: w)
  simp only [hd]
  rw [← hw]
  have hl := loads_dumps (Json.obj kvs)
  unfold dumps at hl
  rw [hl]

/-- C2 (amended) witness at a concrete reply with leading noise. -/
theorem c2_amended_witness :
    ('{' ∉ (serJsonChars (Json.obj [("a", Json.num 1)])).drop 1) ∧
    loads (String.mk ("noise ".data ++ serJsonChars (Json.obj [("a", Json.num 1)]))) = none ∧
    run_json_agent
        (.reply (String.mk ("noise ".data ++ serJsonChars (Json.obj [("a", Json.num 1)])))) =
      some (Json.obj [("a", Json.num 1)]) :=
  ⟨by decide, by decide,
    c2_amended_fallback_recovers_suffix_object "noise ".data [("a", Json.num 1)]
      (by decide) (by decide)⟩

/-- C4: JSON round trip through `_run_json_agent`: when the reply content
is exactly `json.dumps` of an object `d` (a Python dict, hence with
pairwise distinct keys), the strict parse succeeds and the function
returns `d`. -/
theorem c4_json_roundtrip (kvs : List (String × Json))
    (hkeys : (kvs.map Prod.fst).Nodup) :
    run_json_agent (.reply (dumps (Json.obj kvs))) = some (Json.obj kvs) := by
  simp only [run_json_agent]
  rw [loads_dumps]

/-- C4 witness at a concrete two-key object. -/
theorem c4_json_roundtrip_witness :
    (([("a", Json.num 1), ("b", Json.str "x")].map
        (Prod.fst (α := String) (β := Json))).Nodup) ∧
    run_json_agent (.reply (dumps (Json.obj [("a", Json.num 1), ("b", Json.str "x")]))) =
      some (Json.obj [("a", Json.num 1), ("b", Json.str "x")]) :=
  ⟨by decide, c4_json_roundtrip [("a", Json.num 1), ("b", Json.str "x")] (by decide)⟩

/-! ## The five agent functions (src/agents.py lines 60-323)

Each agent renders its fixed system prompt (an f-string interpolating
`PROJECT_NAME`), JSON-encodes its inputs into the user message, and calls
`_run_json_agent`.  `LLM` is the oracle for the external completion
endpoint; besides its result, each agent records the single request
`(system_prompt, user_content)` it issued. -/

abbrev LLM := String → String → LLMOutcome

def PROJECT_NAME : String := "SafeScroll"

def PROJECT_SLUG : String := "safescroll"

/-- `json.dumps` maps Python `None` to `null`; agent results threaded back
into later payloads may be `None` (see C1). -/
def pyJson : Option Json → Json
  | some j => j
  | none => Json.null

/-- One `_run_json_agent` invocation: the result together with the request
sent to the completion endpoint. -/
def agent_request (llm : LLM) (system_prompt user_content : String) :
    Option Json × List (String × String) :=
  (run_json_agent (llm system_prompt user_content), [(system_prompt, user_content)])

def underage_system_prompt : String :=
  "\nYou are an Underage Risk Detection Agent for " ++ PROJECT_NAME ++
  ".\n\nYou receive:\n- A user profile (age, account_type, created_at)\n- A sample of their posts\n\nTask:\n1. Estimate if the user appears UNDER 18 or ADULT based on content style and declared age.\n2. Output a risk score for \"underage_misrepresentation\" from 0 to 100.\n3. Provide reasoning.\n\nOutput strict JSON:\n\n\x7b\n  \"is_minor_suspected\": true,\n  \"underage_misrepresentation_risk\": 0,\n  \"reason\": \"\"\n\x7d\n"

def content_system_prompt : String :=
  "\nYou are a Content Safety Agent working for " ++ PROJECT_NAME ++
  ".\n\nYou receive a list of posts from one user. For each post, you should detect:\n- bullying\n- self_harm\n- sexual_exploitation_or_grooming\n- substance_abuse\n\nThen aggregate into overall risk levels.\n\nOverall risk levels should be \"none\", \"low\", \"medium\", or \"high\".\n\nOutput this strict JSON:\n\n\x7b\n  \"per_post\": [\n    \x7b\n      \"post_id\": \"\",\n      \"text\": \"\",\n      \"bullying_risk\": \"none\",\n      \"self_harm_risk\": \"none\",\n      \"sexual_exploitation_risk\": \"none\",\n      \"substance_abuse_risk\": \"none\",\n      \"notes\": \"\"\n    \x7d\n  ],\n  \"overall\": \x7b\n    \"bullying_risk\": \"none\",\n    \"self_harm_risk\": \"none\",\n    \"sexual_exploitation_risk\": \"none\",\n    \"substance_abuse_risk\": \"none\",\n    \"summary\": \"\"\n  \x7d\n\x7d\n"

def interaction_system_prompt : String :=
  "\nYou are an Interaction Risk Agent for " ++ PROJECT_NAME ++
  ".\n\nYou receive:\n- A user profile\n- A list of direct message interactions between this user and others.\n  Each interaction includes from_user, to_user, text, and age information (in metadata).\n\nTask:\n1. Detect if there are signs of grooming or sexual exploitation risk.\n2. Consider age differences (older messaging younger).\n3. Output a \"grooming_risk\" level: \"none\", \"low\", \"medium\", \"high\", \"critical\".\n4. Provide key evidence snippets.\n\nOutput strict JSON:\n\n\x7b\n  \"grooming_risk\": \"none\",\n  \"evidence\": [\n    \x7b\n      \"interaction_id\": \"\",\n      \"text_snippet\": \"\",\n      \"comment\": \"\"\n    \x7d\n  ],\n  \"summary\": \"\"\n\x7d\n"

def policy_system_prompt : String :=
  "\nYou are a Policy Violation Agent for " ++ PROJECT_NAME ++
  ".\n\nYou receive:\n- Company safety policies text.\n- Aggregated findings from other safety agents about a single user.\n\nTask:\n1. Map the findings to specific policy sections that are likely violated.\n2. Determine overall severity: \"low\", \"medium\", \"high\", \"critical\".\n3. Recommend an action:\n   - \"monitor\"\n   - \"warn\"\n   - \"restrict_features\"\n   - \"escalate_to_safety_team\"\n   - \"temporary_suspension\"\n4. Provide a short explanation.\n\nOutput strict JSON:\n\n\x7b\n  \"violated_sections\": [],\n  \"overall_severity\": \"low\",\n  \"recommended_action\": \"\",\n  \"explanation\": \"\"\n\x7d\n"

def report_system_prompt : String :=
  "\nYou are a Safety Report Generator Agent for " ++ PROJECT_NAME ++
  ".\n\nYou receive structured JSON from several safety agents for ONE user:\n- underage risk\n- content risk\n- interaction/grooming risk\n- policy violation summary\n\nTask:\n1. Produce a clear, human-readable report (markdown-style).\n2. Include:\n   - short user summary\n   - key risks\n   - evidence examples\n   - final recommended action\n\nOutput strict JSON:\n\n\x7b\n  \"risk_title\": \"\",\n  \"overall_risk_score\": 0,\n  \"risk_summary\": \"\",\n  \"markdown_report\": \"\"\n\x7d\n"

def underage_risk_agent (llm : LLM) (user_profile : Json) (posts : List Json) :
    Option Json × List (String × String) :=
  agent_request llm underage_system_prompt
    ("USER_PROFILE:\n" ++ dumps user_profile ++ "\n\nSAMPLE_POSTS:\n" ++ dumps (Json.arr posts))

def content_risk_agent (llm : LLM) (posts : List Json) :
    Option Json × List (String × String) :=
  agent_request llm content_system_prompt (dumps (Json.arr posts))

def interaction_risk_agent (llm : LLM) (user_profile : Json) (interactions : List Json) :
    Option Json × List (String × String) :=
  agent_request llm interaction_system_prompt
    (dumps (Json.obj [("user_profile", user_profile), ("interactions", Json.arr interactions)]))

def policy_violation_agent (llm : LLM) (policy_text : String)
    (aggregated_findings : List (String × Option Json)) :
    Option Json × List (String × String) :=
  agent_request llm policy_system_prompt
    (dumps (Json.obj [("policies", Json.str policy_text),
      ("findings", Json.obj (aggregated_findings.map (fun kv => (kv.1, pyJson kv.2))))]))

def report_generator_agent (llm : LLM) (user_profile : Json)
    (underage content interactions policy_result : Option Json) :
    Option Json × List (String × String) :=
  agent_request llm report_system_prompt
    (dumps (Json.obj [("user_profile", user_profile), ("underage", pyJson underage),
      ("content", pyJson content), ("interactions", pyJson interactions),
      ("policy_result", pyJson policy_result)]))

/-! ## src/app.py: data loading, policies, and the audit button handler -/

structure UserRow where
  user_id : String
  age : Nat
  account_type : String
  created_at : Nat
  deriving DecidableEq

structure PostRow where
  post_id : String
  user_id : String
  text : String
  timestamp : Nat
  deriving DecidableEq

structure InterRow where
  interaction_id : String
  from_user : String
  to_user : String
  type : String
  text : String
  timestamp : Nat
  deriving DecidableEq

/-- `Path(a) / b` rendered as a POSIX path. -/
def pathJoin (a b : String) : String := a ++ "/" ++ b

/-- The three CSV paths read by `load_data` (src/app.py lines 196-201). -/
def load_data_files : List String :=
  [pathJoin "data" "users.csv", pathJoin "data" "posts.csv", pathJoin "data" "interactions.csv"]

/-- The three CSV paths written by `save_data` (src/generate_synthetic_data.py
lines 130-134) for a given output directory and filename prefix. -/
def save_data_files (out_dir pfx : String) : List String :=
  [pathJoin out_dir (pfx ++ "_users.csv"), pathJoin out_dir (pfx ++ "_posts.csv"),
    pathJoin out_dir (pfx ++ "_interactions.csv")]

/-- `argparse` default for `--out-dir`. -/
def default_out_dir : String := "data"

/-- `argparse` default for `--prefix`. -/
def default_pfx : String := "safescroll"

/-- Model of `load_policies` (src/app.py lines 204-207).  The policy file
at the fixed path is modelled as `some` its text when it exists and `none`
otherwise. -/
def load_policies (policy_file : Option String) : String :=
  match policy_file with
  | some txt => txt
  | none => "No policies found."

/-- `posts[posts["user_id"] == selected_user_id]` (src/app.py line 258). -/
def user_posts_of (posts : List PostRow) (uid : String) : List PostRow :=
  posts.filter (fun p => p.user_id == uid)

/-- The interaction filter of src/app.py lines 259-262. -/
def user_interactions_of (inters : List InterRow) (uid : String) : List InterRow :=
  inters.filter (fun r => r.from_user == uid || r.to_user == uid)

/-- `dict(zip(users["user_id"], users["age"])).get(uid, -1)` (src/app.py
lines 370, 374-375); the generated user ids are pairwise distinct, so the
first-match lookup agrees with the Python dict built from the same pairs. -/
def users_age_map (users : List UserRow) (uid : String) : Int :=
  match users.find? (fun u => u.user_id == uid) with
  | some u => (u.age : Int)
  | none => -1

def userRowJson (u : UserRow) : Json :=
  Json.obj [("user_id", Json.str u.user_id), ("age", Json.num u.age),
    ("account_type", Json.str u.account_type), ("created_at", Json.num u.created_at)]

/-- `user_posts_df[["post_id", "text"]].to_dict(orient="records")`
(src/app.py line 368). -/
def postJson (p : PostRow) : Json :=
  Json.obj [("post_id", Json.str p.post_id), ("text", Json.str p.text)]

/-- One row of `inter_payload` (src/app.py lines 371-376): the row as a
dict with `from_age` / `to_age` appended from the age map. -/
def interJson (users : List UserRow) (r : InterRow) : Json :=
  Json.obj [("interaction_id", Json.str r.interaction_id), ("from_user", Json.str r.from_user),
    ("to_user", Json.str r.to_user), ("type", Json.str r.type), ("text", Json.str r.text),
    ("timestamp", Json.num r.timestamp), ("from_age", Json.num (users_age_map users r.from_user)),
    ("to_age", Json.num (users_age_map users r.to_user))]

/-- Python truthiness of `os.getenv("OPENAI_API_KEY")`: `None` and the
empty string are falsy. -/
def pyTruthy : Option String → Bool
  | none => false
  | some s => !s.isEmpty

def listHasPre : List Char → List Char → Bool
  | [], _ => true
  | _ :: _, [] => false
  | c :: n, d :: h => c == d && listHasPre n h

def listHasSub (n : List Char) : List Char → Bool
  | [] => listHasPre n []
  | d :: t => listHasPre n (d :: t) || listHasSub n t

/-- Python `needle in hay` on strings. -/
def strContains (hay needle : String) : Bool := listHasSub needle.data hay.data

/-- Demo-mode `underage_res` literal (src/app.py lines 299-303). -/
def demo_underage_res : Json :=
  Json.obj [("is_minor_suspected", Json.bool true),
    ("underage_misrepresentation_risk", Json.num 72),
    ("reason", Json.str "User posts indicate teenage language patterns and age-related topics.")]

/-- Demo-mode `content_res` (src/app.py lines 305-324): hardcoded except
that the single `per_post` entry echoes the selected user's first post
(`"p1"` / `""` when the user has no posts). -/
def demo_content_res (user_posts : List PostRow) : Json :=
  Json.obj [
    ("per_post", Json.arr [Json.obj [
      ("post_id", Json.str (match user_posts with | [] => "p1" | p :: _ => p.post_id)),
      ("text", Json.str (match user_posts with | [] => "" | p :: _ => p.text)),
      ("bullying_risk", Json.str "none"),
      ("self_harm_risk", Json.str "low"),
      ("sexual_exploitation_risk", Json.str "none"),
      ("substance_abuse_risk", Json.str "low"),
      ("notes", Json.str "Some references to substance use and low-level self-harm language.")]]),
    ("overall", Json.obj [
      ("bullying_risk", Json.str "low"),
      ("self_harm_risk", Json.str "low"),
      ("sexual_exploitation_risk", Json.str "none"),
      ("substance_abuse_risk", Json.str "low"),
      ("summary", Json.str
        "Low-to-moderate concerns primarily around substance references and self-harm wording.")])]

/-- Demo-mode `interaction_res` (src/app.py lines 326-336): hardcoded
except that the evidence entry echoes the selected user's first
interaction. -/
def demo_interaction_res (user_inters : List InterRow) : Json :=
  Json.obj [
    ("grooming_risk", Json.str "medium"),
    ("evidence", Json.arr [Json.obj [
      ("interaction_id", Json.str
        (match user_inters with | [] => "i1" | r :: _ => r.interaction_id)),
      ("text_snippet", Json.str
        (match user_inters with | [] => "Don't tell anyone we talk here." | r :: _ => r.text)),
      ("comment", Json.str "Secrecy and older-user behavior detected.")]]),
    ("summary", Json.str "Some age-imbalanced conversations and secrecy cues were observed.")]

/-- Demo-mode `policy_res` literal (src/app.py lines 338-343). -/
def demo_policy_res : Json :=
  Json.obj [
    ("violated_sections", Json.arr [Json.str "Underage Safety", Json.str "Substance Use Policy"]),
    ("overall_severity", Json.str "medium"),
    ("recommended_action", Json.str "monitor"),
    ("explanation", Json.str
      "Behavior matches medium-risk guidelines; recommend monitoring and a warning if escalates.")]

/-- Demo-mode `report_res` literal (src/app.py lines 345-356). -/
def demo_report_res : Json :=
  Json.obj [
    ("risk_title", Json.str (PROJECT_NAME ++ " Automated Safety Report")),
    ("overall_risk_score", Json.num 62),
    ("risk_summary", Json.str "Moderate concerns detected. Monitoring recommended."),
    ("markdown_report", Json.str
      ("### Summary\nModerate concerns detected in posts and DMs. Evidence suggests age-imbalanced interactions and mentions of substance use. Recommended action: monitor and warn if behavior escalates.\n\n### Evidence\n- Secrecy in DMs: 'Don't tell anyone we talk here.'\n- Post: 'Trying pills for the first time haha.'\n\n### Recommendation\n- Monitor the account for escalation\n- Send a precautionary warning message\n- Escalate to human safety team if further evidence appears."))]

/-- Result of one audit-button click: the five agent results via the demo
path, an early return with an error message (key present but still the
placeholder), or the five results of the real flow. -/
inductive ClickOutcome where
  | demoOut (underage content interaction policy report : Json) : ClickOutcome
  | configError : ClickOutcome
  | realOut (underage content interaction policy report : Option Json) : ClickOutcome
  deriving DecidableEq

/-- Model of the `st.button("Run Multi-Agent Safety Audit")` handler body
(src/app.py lines 290-391).  `apiKey` is `os.getenv("OPENAI_API_KEY")`
(`DEMO_MODE = not bool(...)`), `user_row`, `user_posts`, `user_inters` are
the rows selected before the click, and the second component collects
every request issued to the completion endpoint, in order. -/
def audit_click (apiKey : Option String) (llm : LLM) (users : List UserRow)
    (user_row : Json) (user_posts : List PostRow) (user_inters : List InterRow)
    (policies_text : String) : ClickOutcome × List (String × String) :=
  if !(pyTruthy apiKey) then
    (.demoOut demo_underage_res (demo_content_res user_posts)
      (demo_interaction_res user_inters) demo_policy_res demo_report_res, [])
  else
    let api_key := apiKey.getD ""
    if api_key.isEmpty || strContains api_key "YOUR_OPENAI_API_KEY_HERE" then
      (.configError, [])
    else
      let posts_payload := user_posts.map postJson
      let inter_payload := user_inters.map (interJson users)
      let u := underage_risk_agent llm user_row posts_payload
      let c := content_risk_agent llm posts_payload
      let i := interaction_risk_agent llm user_row inter_payload
      let p := policy_violation_agent llm policies_text
        [("underage", u.1), ("content", c.1), ("interactions", i.1)]
      let r := report_generator_agent llm user_row u.1 c.1 i.1 p.1
      (.realOut u.1 c.1 i.1 p.1 r.1, u.2 ++ c.2 ++ i.2 ++ p.2 ++ r.2)

/-- C5: the fixed path convention is NOT consistent: under the generator's
defaults (`--out-dir data`, `--prefix safescroll`), `save_data` writes
`data/safescroll_*.csv`, while the dashboard's `load_data` reads
`data/users.csv`, `data/posts.csv`, `data/interactions.csv` — none of the
written files is ever read. -/
theorem c5_path_mismatch :
    save_data_files default_out_dir default_pfx =
      ["data/safescroll_users.csv", "data/safescroll_posts.csv",
        "data/safescroll_interactions.csv"] ∧
    load_data_files = ["data/users.csv", "data/posts.csv", "data/interactions.csv"] ∧
    save_data_files default_out_dir default_pfx ≠ load_data_files := by
  refine ⟨by decide, by decide, by decide⟩

/-- C8: `load_policies` is total: it returns the file's text when the
policy file exists and the literal `"No policies found."` otherwise, so
the dashboard always obtains some policy text. -/
theorem c8_load_policies_total (policy_file : Option String) :
    (∃ t, policy_file = some t ∧ load_policies policy_file = t) ∨
    (policy_file = none ∧ load_policies policy_file = "No policies found.") := by
  cases policy_file with
  | none => exact Or.inr ⟨rfl, rfl⟩
  | some t => exact Or.inl ⟨t, rfl, rfl⟩

/-- C3 (counterexample): with no API key, two different selected users of
the same posts table get different demo output — the mocked `content_res`
echoes the selected user's first post, so the demo results are not
identical for every selected user. -/
theorem c3_counterexample_demo_depends_on_user :
    pyTruthy none = false ∧
    audit_click none (fun _ _ => LLMOutcome.badShape) []
        (userRowJson ⟨"u1", 15, "standard", 0⟩)
        (user_posts_of
          [⟨"p1", "u1", "first post of u1", 0⟩, ⟨"p2", "u2", "first post of u2", 0⟩] "u1")
        (user_interactions_of [] "u1") "policies" ≠
      audit_click none (fun _ _ => LLMOutcome.badShape) []
        (userRowJson ⟨"u2", 20, "standard", 1⟩)
        (user_posts_of
          [⟨"p1", "u1", "first post of u1", 0⟩, ⟨"p2", "u2", "first post of u2", 0⟩] "u2")
        (user_interactions_of [] "u2") "policies" := by
  refine ⟨rfl, by decide⟩

/-- C3 (amended): when `OPENAI_API_KEY` is unset or empty, the click takes
the demo path: no agent function runs and no completion request is issued
(the request log is empty), and the five results are the hardcoded
literals, except that `content_res` echoes the selected user's first post
and `interaction_res` echoes their first interaction. -/
theorem c3_amended_demo_no_requests (apiKey : Option String) (llm : LLM)
    (users : List UserRow) (user_row : Json) (user_posts : List PostRow)
    (user_inters : List InterRow) (policies_text : String)
    (h : pyTruthy apiKey = false) :
    audit_click apiKey llm users user_row user_posts user_inters policies_text =
      (.demoOut demo_underage_res (demo_content_res user_posts)
        (demo_interaction_res user_inters) demo_policy_res demo_report_res, []) := by
  simp [audit_click, h]

/-- C3 (amended) witness: concrete demo-mode click. -/
theorem c3_amended_witness :
    pyTruthy none = false ∧
    audit_click none (fun _ _ => LLMOutcome.badShape) []
        (userRowJson ⟨"u1", 15, "standard", 0⟩) [] [] "p" =
      (.demoOut demo_underage_res (demo_content_res []) (demo_interaction_res [])
        demo_policy_res demo_report_res, []) :=
  ⟨rfl, c3_amended_demo_no_requests none (fun _ _ => LLMOutcome.badShape) []
    (userRowJson ⟨"u1", 15, "standard", 0⟩) [] [] "p" rfl⟩

/-- C6 (counterexample): with the key set to the placeholder value the
mode is NOT demo (`bool(api_key)` is true), yet the click makes zero agent
invocations: it returns the inline configuration error before the spinner
block. -/
theorem c6_counterexample_placeholder_key :
    pyTruthy (some "YOUR_OPENAI_API_KEY_HERE") = true ∧
    audit_click (some "YOUR_OPENAI_API_KEY_HERE") (fun _ _ => LLMOutcome.badShape) []
        (userRowJson ⟨"u1", 15, "standard", 0⟩) [] [] "p" =
      (.configError, []) := by
  refine ⟨rfl, by decide⟩

/-- C6 (amended): in non-demo mode with a key that does not contain the
placeholder, the click issues exactly five completion requests — one per
agent, in the order underage, content, interaction, policy, report (the
five system prompts are pairwise distinct, so each agent runs exactly
once and nothing is retried) — with `policy_violation_agent` applied to
the aggregate of the first three results and `report_generator_agent`
applied to all four earlier results. -/
theorem c6_amended_real_audit_sequence (apiKey : Option String) (llm : LLM)
    (users : List UserRow) (user_row : Json) (user_posts : List PostRow)
    (user_inters : List InterRow) (policies_text : String)
    (h1 : pyTruthy apiKey = true)
    (h2 : strContains (apiKey.getD "") "YOUR_OPENAI_API_KEY_HERE" = false) :
    (audit_click apiKey llm users user_row user_posts user_inters policies_text).2.map
        Prod.fst =
      [underage_system_prompt, content_system_prompt, interaction_system_prompt,
        policy_system_prompt, report_system_prompt] ∧
    [underage_system_prompt, content_system_prompt, interaction_system_prompt,
        policy_system_prompt, report_system_prompt].Nodup ∧
    (audit_click apiKey llm users user_row user_posts user_inters policies_text).1 =
      (let u := (underage_risk_agent llm user_row (user_posts.map postJson)).1
       let c := (content_risk_agent llm (user_posts.map postJson)).1
       let i := (interaction_risk_agent llm user_row (user_inters.map (interJson users))).1
       let p := (policy_violation_agent llm policies_text
          [("underage", u), ("content", c), ("interactions", i)]).1
       ClickOutcome.realOut u c i p
         (report_generator_agent llm user_row u c i p).1) := by
  obtain ⟨s, hs⟩ : ∃ s, apiKey = some s := by
    cases apiKey with
    | none => exact absurd h1 (by decide)
    | some s => exact ⟨s, rfl⟩
  subst hs
  have hsE : s.isEmpty = false := by
    simp [pyTruthy] at h1
    simp [String.isEmpty_iff, h1]
  simp only [Option.getD_some] at h2
  refine ⟨?_, by decide, ?_⟩
  · simp [audit_click, pyTruthy, hsE, h2, underage_risk_agent, content_risk_agent,
      interaction_risk_agent, policy_violation_agent, report_generator_agent, agent_request]
  · simp [audit_click, pyTruthy, hsE, h2]

/-- C6 (amended) witness: concrete real-mode click with a failing LLM. -/
theorem c6_amended_witness :
    pyTruthy (some "sk-test-123") = true ∧
    strContains ((some "sk-test-123").getD "") "YOUR_OPENAI_API_KEY_HERE" = false ∧
    ((audit_click (some "sk-test-123") (fun _ _ => LLMOutcome.raised "boom") []
        (userRowJson ⟨"u1", 15, "standard", 0⟩) [] [] "p").2.map Prod.fst =
      [underage_system_prompt, content_system_prompt, interaction_system_prompt,
        policy_system_prompt, report_system_prompt] ∧
    [underage_system_prompt, content_system_prompt, interaction_system_prompt,
        policy_system_prompt, report_system_prompt].Nodup ∧
    (audit_click (some "sk-test-123") (fun _ _ => LLMOutcome.raised "boom") []
        (userRowJson ⟨"u1", 15, "standard", 0⟩) [] [] "p").1 =
      (let u := (underage_risk_agent (fun _ _ => LLMOutcome.raised "boom")
          (userRowJson ⟨"u1", 15, "standard", 0⟩) (([] : List PostRow).map postJson)).1
       let c := (content_risk_agent (fun _ _ => LLMOutcome.raised "boom")
          (([] : List PostRow).map postJson)).1
       let i := (interaction_risk_agent (fun _ _ => LLMOutcome.raised "boom")
          (userRowJson ⟨"u1", 15, "standard", 0⟩)
          (([] : List InterRow).map (interJson []))).1
       let p := (policy_violation_agent (fun _ _ => LLMOutcome.raised "boom") "p"
          [("underage", u), ("content", c), ("interactions", i)]).1
       ClickOutcome.realOut u c i p
         (report_generator_agent (fun _ _ => LLMOutcome.raised "boom")
           (userRowJson ⟨"u1", 15, "standard", 0⟩) u c i p).1)) :=
  ⟨rfl, by decide,
    c6_amended_real_audit_sequence (some "sk-test-123") (fun _ _ => LLMOutcome.raised "boom")
      [] (userRowJson ⟨"u1", 15, "standard", 0⟩) [] [] "p" rfl (by decide)⟩

/-! ## src/generate_synthetic_data.py

`random` is modelled by an oracle stream `g : Nat → Nat` and a cursor `k`
threaded in program order; each primitive consumes stream positions:
`random.choice(l)` reads one value and picks index `g k % len(l)`,
`random.randint(0, 60)` reads one value modulo 61, `random.random()`
reads one value and is interpreted as the rational `g k % 10^6 / 10^6`
(so a comparison `bucket < 0.15` becomes `g k % 10^6 < 150000`), and
`random.sample(ids, 2)` reads two values and selects without
replacement. -/

def risky_self_harm : List String :=
  ["I feel like nothing matters anymore.", "Sometimes I just want to disappear.",
    "I have not eaten properly in days."]

def risky_bully : List String :=
  ["You are so ugly lol.", "Nobody likes you, just leave.",
    "You are a loser, everyone knows it."]

def risky_grooming : List String :=
  ["Don't tell your parents we talk here.", "Keep our chats secret okay?",
    "You can trust me, Iâ€™m older and I know better."]

def risky_substance : List String :=
  ["Got so drunk last night lol.", "Trying pills for the first time haha.",
    "Smoking every day now, feels great."]

def safe_pool : List String :=
  ["Exam went well today.", "Had a great day with friends!",
    "Practicing for my football match.", "Studying hard for JEE.",
    "Watching movies with family."]

def dm_risky : List String :=
  ["Don't tell anyone we talk here.", "I can send you pics but keep it secret.",
    "We should meet alone sometime."]

def dm_neutral : List String :=
  ["Hey, how are your exams going?", "Let's play BGMI later.",
    "Did you finish the homework?"]

def age_pool : List Nat := [13, 14, 15, 16, 17, 18, 21, 25, 30]

def account_type_pool : List String := ["standard", "creator", "business"]

/-- `random.choice(l)`: one oracle read, uniform index. -/
def pyChoice (g : Nat → Nat) (k : Nat) (l : List String) : String :=
  l.getD (g k % l.length) ""

/-- Model of `sample_post_text` (src/generate_synthetic_data.py lines
24-71): one `random.random()` bucket draw, then one `random.choice` from
the pool selected by the declared age; returns the text and the new
cursor. -/
def sample_post_text (g : Nat → Nat) (k : Nat) (user_age : Nat) : String × Nat :=
  let bucket := g k % 1000000
  if user_age < 18 then
    if bucket < 150000 then (pyChoice g (k + 1) risky_self_harm, k + 2)
    else if bucket < 300000 then (pyChoice g (k + 1) risky_bully, k + 2)
    else if bucket < 400000 then (pyChoice g (k + 1) risky_grooming, k + 2)
    else (pyChoice g (k + 1) safe_pool, k + 2)
  else
    if bucket < 150000 then (pyChoice g (k + 1) risky_substance, k + 2)
    else if bucket < 300000 then (pyChoice g (k + 1) risky_grooming, k + 2)
    else if bucket < 400000 then (pyChoice g (k + 1) risky_bully, k + 2)
    else (pyChoice g (k + 1) safe_pool, k + 2)

/-- Model of `generate_users` (lines 8-21): ids `u1..un`, ages then
account types each drawn from their pools (`n` draws each), `created_at`
as the day index of `pd.date_range`. -/
def generate_users (g : Nat → Nat) (k : Nat) (n : Nat) : List UserRow × Nat :=
  ((List.range n).map (fun i =>
    { user_id := "u" ++ natToStr (i + 1)
      age := age_pool.getD (g (k + i) % age_pool.length) 0
      account_type := account_type_pool.getD (g (k + n + i) % account_type_pool.length) ""
      created_at := i }), k + 2 * n)

/-- Posts of one user (inner loop of `generate_posts`, lines 78-88):
each post consumes a `sample_post_text` (two draws) and one
`random.randint(0, 60)` timestamp; `post_id` is the running counter. -/
def gen_posts_user (g : Nat → Nat) (u : UserRow) :
    Nat → Nat → Nat → List PostRow × Nat × Nat
  | 0, k, pid => ([], k, pid)
  | m + 1, k, pid =>
    let tk := sample_post_text g k u.age
    let ts := g tk.2 % 61
    let rest := gen_posts_user g u m (tk.2 + 1) (pid + 1)
    ({ post_id := "p" ++ natToStr pid, user_id := u.user_id, text := tk.1, timestamp := ts }
      :: rest.1, rest.2)

def gen_posts_all (g : Nat → Nat) (ppu : Nat) :
    List UserRow → Nat → Nat → List PostRow × Nat
  | [], k, _ => ([], k)
  | u :: us, k, pid =>
    let h := gen_posts_user g u ppu k pid
    let rest := gen_posts_all g ppu us h.2.1 h.2.2
    (h.1 ++ rest.1, rest.2)

/-- Model of `generate_posts` (lines 74-89). -/
def generate_posts (g : Nat → Nat) (k : Nat) (users : List UserRow)
    (posts_per_user : Nat) : List PostRow × Nat :=
  gen_posts_all g posts_per_user users k 1

/-- Model of `random.sample(user_ids, 2)` (line 112): `none` models the
`ValueError` raised when the population has fewer than 2 elements;
otherwise two distinct positions are selected without replacement. -/
def sample2 (g : Nat → Nat) (k : Nat) (ids : List String) : Option (String × String) :=
  if ids.length < 2 then none
  else
    let i1 := g k % ids.length
    let l2 := ids.eraseIdx i1
    some (ids.getD i1 "", l2.getD (g (k + 1) % l2.length) "")

/-- Model of the nested `sample_dm_text` (lines 97-108): one
`random.random()` draw against 0.4, then one `random.choice`. -/
def sample_dm_text (g : Nat → Nat) (k : Nat) : String × Nat :=
  let flag := g k % 1000000 < 400000
  (pyChoice g (k + 1) (if flag then dm_risky else dm_neutral), k + 2)

/-- Main loop of `generate_interactions` (lines 111-125): sample a pair,
order it by age (ties send the second sampled user), draw the DM text and
a timestamp. -/
def gen_inter (g : Nat → Nat) (ids : List String) (ageOf : String → Nat) :
    Nat → Nat → Nat → Option (List InterRow × Nat)
  | 0, k, _ => some ([], k)
  | c + 1, k, i =>
    match sample2 g k ids with
    | none => none
    | some (u1, u2) =>
      let a1 := ageOf u1
      let a2 := ageOf u2
      let older := if a1 > a2 then u1 else u2
      let younger := if a1 > a2 then u2 else u1
      let td := sample_dm_text g (k + 2)
      let ts := g td.2 % 61
      match gen_inter g ids ageOf c (td.2 + 1) (i + 1) with
      | none => none
      | some (rest, k2) =>
        some (InterRow.mk ("i" ++ natToStr (i + 1)) older younger "dm" td.1 ts :: rest, k2)

/-- `ages = dict(zip(users["user_id"], users["age"]))` (line 95); the
generated ids are pairwise distinct, so the first-match lookup agrees
with the Python dict. -/
def ages_of (users : List UserRow) (uid : String) : Nat :=
  match users.find? (fun u => u.user_id == uid) with
  | some u => u.age
  | none => 0

/-- Model of `generate_interactions` (lines 92-127). -/
def generate_interactions (g : Nat → Nat) (k : Nat) (users : List UserRow)
    (n_interactions : Nat) : Option (List InterRow × Nat) :=
  gen_inter g (users.map (fun u => u.user_id)) (ages_of users) n_interactions k 0

/-! ## Generator invariants -/

theorem pyChoice_mem (g : Nat → Nat) (k : Nat) (l : List String) (h : l ≠ []) :
    pyChoice g k l ∈ l := by
  unfold pyChoice
  have hlen : 0 < l.length := List.length_pos.2 h
  have hlt : g k % l.length < l.length := Nat.mod_lt _ hlen
  rw [List.getD_eq_getElem l "" hlt]
  exact List.getElem_mem hlt

theorem getD_mem (l : List String) (i : Nat) (h : i < l.length) : l.getD i "" ∈ l := by
  rw [List.getD_eq_getElem l "" h]
  exact List.getElem_mem h

theorem nodup_getD_not_mem_eraseIdx :
    ∀ (l : List String) (i : Nat), l.Nodup → i < l.length → l.getD i "" ∉ l.eraseIdx i := by
  intro l
  induction l with
  | nil => intro i _ hi; simp at hi
  | cons c t ih =>
    intro i hnd hi
    rcases List.nodup_cons.1 hnd with ⟨hc, ht⟩
    cases i with
    | zero => simpa using hc
    | succ j =>
      have hj : j < t.length := by simpa using hi
      have hmem : t.getD j "" ∈ t := getD_mem t j hj
      have hne : t.getD j "" ≠ c := by
        intro e
        rw [e] at hmem
        exact hc hmem
      simp only [List.getD_cons_succ, List.eraseIdx_cons_succ, List.mem_cons]
      push_neg
      exact ⟨hne, ih j ht hj⟩

theorem sample2_spec (g : Nat → Nat) (k : Nat) (ids : List String) (u1 u2 : String)
    (hnd : ids.Nodup) (h : sample2 g k ids = some (u1, u2)) :
    u1 ∈ ids ∧ u2 ∈ ids ∧ u1 ≠ u2 := by
  unfold sample2 at h
  split at h
  · exact absurd h (by simp)
  next hlen =>
    have hlen2 : 2 ≤ ids.length := by omega
    have hi1 : g k % ids.length < ids.length := Nat.mod_lt _ (by omega)
    have hlen3 : (ids.eraseIdx (g k % ids.length)).length = ids.length - 1 :=
      List.length_eraseIdx_of_lt hi1
    have hi2 : g (k + 1) % (ids.eraseIdx (g k % ids.length)).length <
        (ids.eraseIdx (g k % ids.length)).length := by
      apply Nat.mod_lt
      omega
    simp only [Option.some.injEq, Prod.mk.injEq] at h
    obtain ⟨h1, h2⟩ := h
    have hu1 : u1 ∈ ids := by rw [← h1]; exact getD_mem ids _ hi1
    have hu2e : u2 ∈ ids.eraseIdx (g k % ids.length) := by
      rw [← h2]; exact getD_mem _ _ hi2
    have hu2 : u2 ∈ ids := List.eraseIdx_subset ids _ hu2e
    have hne : u1 ≠ u2 := by
      intro e
      have := nodup_getD_not_mem_eraseIdx ids (g k % ids.length) hnd hi1
      rw [h1, e] at this
      exact this hu2e
    exact ⟨hu1, hu2, hne⟩

theorem gen_inter_integrity (g : Nat → Nat) (ids : List String) (ageOf : String → Nat)
    (hnd : ids.Nodup) :
    ∀ (cnt k i : Nat) (rows : List InterRow) (k2 : Nat),
      gen_inter g ids ageOf cnt k i = some (rows, k2) →
      ∀ r ∈ rows, r.from_user ∈ ids ∧ r.to_user ∈ ids ∧ r.from_user ≠ r.to_user := by
  intro cnt
  induction cnt with
  | zero =>
    intro k i rows k2 h r hr
    simp [gen_inter] at h
    rw [h.1] at hr
    simp at hr
  | succ c ih =>
    intro k i rows k2 h r hr
    simp only [gen_inter] at h
    cases hs : sample2 g k ids with
    | none => rw [hs] at h; exact absurd h (by simp)
    | some p =>
      obtain ⟨u1, u2⟩ := p
      rw [hs] at h
      obtain ⟨hu1, hu2, hne⟩ := sample2_spec g k ids u1 u2 hnd hs
      cases hrec : gen_inter g ids ageOf c ((sample_dm_text g (k + 2)).2 + 1) (i + 1) with
      | none => rw [hrec] at h; exact absurd h (by simp)
      | some q =>
        obtain ⟨rest, k3⟩ := q
        rw [hrec] at h
        simp only [Option.some.injEq, Prod.mk.injEq] at h
        rw [← h.1] at hr
        rcases List.mem_cons.1 hr with hr1 | hr1
        · subst hr1
          by_cases hage : ageOf u1 > ageOf u2
          · simp only [hage, if_true, ite_true]
            exact ⟨hu1, hu2, hne⟩
          · simp only [hage, if_false, ite_false]
            exact ⟨hu2, hu1, fun e => hne e.symm⟩
        · exact ih _ _ rest k3 (by rw [hrec]) r hr1

theorem natToStr_injective : Function.Injective natToStr := by
  intro a b h
  have : natDigits a = natDigits b := congrArg String.data h
  exact natDigits_injective this

theorem uid_injective : Function.Injective (fun i : Nat => "u" ++ natToStr (i + 1)) := by
  intro a b h
  simp only at h
  have hdata : ("u" ++ natToStr (a + 1)).data = ("u" ++ natToStr (b + 1)).data :=
    congrArg String.data h
  rw [String.data_append, String.data_append] at hdata
  have h2 : (natToStr (a + 1)).data = (natToStr (b + 1)).data :=
    List.append_cancel_left hdata
  have h3 : natToStr (a + 1) = natToStr (b + 1) := by
    cases hta : natToStr (a + 1) with
    | mk la =>
      cases htb : natToStr (b + 1) with
      | mk lb =>
        rw [hta, htb] at h2
        simp at h2
        rw [h2]
  have := natToStr_injective h3
  omega

theorem generate_users_ids (g : Nat → Nat) (k n : Nat) :
    (generate_users g k n).1.map (fun u => u.user_id) =
      (List.range n).map (fun i => "u" ++ natToStr (i + 1)) := by
  simp [generate_users, List.map_map]

theorem generate_users_ids_nodup (g : Nat → Nat) (k n : Nat) :
    ((generate_users g k n).1.map (fun u => u.user_id)).Nodup := by
  rw [generate_users_ids]
  exact (List.nodup_range n).map uid_injective

theorem gen_posts_user_uid (g : Nat → Nat) (u : UserRow) :
    ∀ (m k pid : Nat), ∀ p ∈ (gen_posts_user g u m k pid).1, p.user_id = u.user_id := by
  intro m
  induction m with
  | zero => intro k pid p hp; simp [gen_posts_user] at hp
  | succ m ih =>
    intro k pid p hp
    simp only [gen_posts_user] at hp
    rcases List.mem_cons.1 hp with h | h
    · rw [h]
    · exact ih _ _ p h

theorem gen_posts_all_uid (g : Nat → Nat) (ppu : Nat) :
    ∀ (users : List UserRow) (k pid : Nat), ∀ p ∈ (gen_posts_all g ppu users k pid).1,
      ∃ u ∈ users, p.user_id = u.user_id := by
  intro users
  induction users with
  | nil => intro k pid p hp; simp [gen_posts_all] at hp
  | cons u us ih =>
    intro k pid p hp
    simp only [gen_posts_all] at hp
    rcases List.mem_append.1 hp with h | h
    · exact ⟨u, by simp, gen_posts_user_uid g u ppu k pid p h⟩
    · obtain ⟨w, hw, he⟩ := ih _ _ p h
      exact ⟨w, by simp [hw], he⟩

/-- C7: referential integrity of the generated tables: every generated
post's `user_id` is a `user_id` of the generated users table, and every
generated interaction's `from_user` and `to_user` are two distinct
`user_id`s of that table (whatever the oracle streams and parameters;
when fewer than two users exist and an interaction is requested,
`random.sample` raises instead of producing rows). -/
theorem c7_referential_integrity (g g2 g3 : Nat → Nat) (k k2 k3 n ppu ni : Nat) :
    (∀ p ∈ (generate_posts g2 k2 (generate_users g k n).1 ppu).1,
        p.user_id ∈ (generate_users g k n).1.map (fun u => u.user_id)) ∧
    (∀ (rows : List InterRow) (k4 : Nat),
        generate_interactions g3 k3 (generate_users g k n).1 ni = some (rows, k4) →
        ∀ r ∈ rows,
          r.from_user ∈ (generate_users g k n).1.map (fun u => u.user_id) ∧
          r.to_user ∈ (generate_users g k n).1.map (fun u => u.user_id) ∧
          r.from_user ≠ r.to_user) := by
  constructor
  · intro p hp
    obtain ⟨u, hu, he⟩ := gen_posts_all_uid g2 ppu (generate_users g k n).1 k2 1 p hp
    rw [he]
    exact List.mem_map.2 ⟨u, hu, rfl⟩
  · intro rows k4 h r hr
    unfold generate_interactions at h
    exact gen_inter_integrity g3 ((generate_users g k n).1.map (fun u => u.user_id))
      (ages_of (generate_users g k n).1) (generate_users_ids_nodup g k n)
      ni k3 0 rows k4 h r hr

/-- C7 witness: two users, one interaction, constant-zero oracle. -/
theorem c7_witness :
    generate_interactions (fun _ => 0) 0 (generate_users (fun _ => 0) 0 2).1 1 =
      some ([InterRow.mk "i1" "u2" "u1" "dm" "Don't tell anyone we talk here." 0], 5) ∧
    ((InterRow.mk "i1" "u2" "u1" "dm" "Don't tell anyone we talk here." 0).from_user ∈
        (generate_users (fun _ => 0) 0 2).1.map (fun u => u.user_id) ∧
      (InterRow.mk "i1" "u2" "u1" "dm" "Don't tell anyone we talk here." 0).to_user ∈
        (generate_users (fun _ => 0) 0 2).1.map (fun u => u.user_id) ∧
      (InterRow.mk "i1" "u2" "u1" "dm" "Don't tell anyone we talk here." 0).from_user ≠
        (InterRow.mk "i1" "u2" "u1" "dm" "Don't tell anyone we talk here." 0).to_user) := by
  have h : generate_interactions (fun _ => 0) 0 (generate_users (fun _ => 0) 0 2).1 1 =
      some ([InterRow.mk "i1" "u2" "u1" "dm" "Don't tell anyone we talk here." 0], 5) := by
    decide
  exact ⟨h, (c7_referential_integrity (fun _ => 0) (fun _ => 0) (fun _ => 0) 0 0 0 2 0 1).2
    [InterRow.mk "i1" "u2" "u1" "dm" "Don't tell anyone we talk here." 0] 5 h
    (InterRow.mk "i1" "u2" "u1" "dm" "Don't tell anyone we talk here." 0) (by simp)⟩

theorem gen_inter_age_order (g : Nat → Nat) (ids : List String) (ageOf : String → Nat) :
    ∀ (cnt k i : Nat) (rows : List InterRow) (k2 : Nat),
      gen_inter g ids ageOf cnt k i = some (rows, k2) →
      ∀ r ∈ rows, ageOf r.to_user ≤ ageOf r.from_user := by
  intro cnt
  induction cnt with
  | zero =>
    intro k i rows k2 h r hr
    simp [gen_inter] at h
    rw [h.1] at hr
    simp at hr
  | succ c ih =>
    intro k i rows k2 h r hr
    simp only [gen_inter] at h
    cases hs : sample2 g k ids with
    | none => rw [hs] at h; exact absurd h (by simp)
    | some p =>
      obtain ⟨u1, u2⟩ := p
      rw [hs] at h
      cases hrec : gen_inter g ids ageOf c ((sample_dm_text g (k + 2)).2 + 1) (i + 1) with
      | none => rw [hrec] at h; exact absurd h (by simp)
      | some q =>
        obtain ⟨rest, k3⟩ := q
        rw [hrec] at h
        simp only [Option.some.injEq, Prod.mk.injEq] at h
        rw [← h.1] at hr
        rcases List.mem_cons.1 hr with hr1 | hr1
        · subst hr1
          by_cases hage : ageOf u1 > ageOf u2
          · simp only [hage, if_true, ite_true]
            omega
          · simp only [hage, if_false, ite_false]
            omega
        · exact ih _ _ rest k3 (by rw [hrec]) r hr1

/-- C9: in every row produced by `generate_interactions`, the declared age
of `from_user` (looked up through the same age map the generator builds
from the users table) is at least the declared age of `to_user`: the older
or age-tied participant is always placed as the sender. -/
theorem c9_from_user_at_least_as_old (g : Nat → Nat) (k : Nat) (users : List UserRow)
    (ni : Nat) (rows : List InterRow) (k2 : Nat)
    (h : generate_interactions g k users ni = some (rows, k2)) :
    ∀ r ∈ rows, ages_of users r.to_user ≤ ages_of users r.from_user := by
  unfold generate_interactions at h
  exact fun r hr => gen_inter_age_order g (users.map (fun u => u.user_id)) (ages_of users)
    ni k 0 rows k2 h r hr

/-- C9 witness: identity oracle, two users of ages 13 and 14; the age-14
user is placed as the sender. -/
theorem c9_witness :
    generate_interactions (fun j => j) 0 (generate_users (fun j => j) 0 2).1 1 =
      some ([InterRow.mk "i1" "u2" "u1" "dm" "Don't tell anyone we talk here." 4], 5) ∧
    ages_of (generate_users (fun j => j) 0 2).1 "u1" ≤
      ages_of (generate_users (fun j => j) 0 2).1 "u2" := by
  have h : generate_interactions (fun j => j) 0 (generate_users (fun j => j) 0 2).1 1 =
      some ([InterRow.mk "i1" "u2" "u1" "dm" "Don't tell anyone we talk here." 4], 5) := by
    decide
  exact ⟨h, c9_from_user_at_least_as_old (fun j => j) 0 (generate_users (fun j => j) 0 2).1 1
    [InterRow.mk "i1" "u2" "u1" "dm" "Don't tell anyone we talk here." 4] 5 h
    (InterRow.mk "i1" "u2" "u1" "dm" "Don't tell anyone we talk here." 4) (by simp)⟩

/-- C10: `sample_post_text` partitions its pools by age: a user below 18
never draws from the substance-abuse pool, a user of 18 or above never
draws from the self-harm pool, and the result is always an element of the
fixed pools. -/
theorem c10_sample_post_text_partition (g : Nat → Nat) (k user_age : Nat) :
    (sample_post_text g k user_age).1 ∈
      risky_self_harm ++ risky_bully ++ risky_grooming ++ risky_substance ++ safe_pool ∧
    (user_age < 18 → (sample_post_text g k user_age).1 ∉ risky_substance) ∧
    (18 ≤ user_age → (sample_post_text g k user_age).1 ∉ risky_self_harm) := by
  by_cases h1 : user_age < 18
  · by_cases hb1 : g k % 1000000 < 150000
    · have he : (sample_post_text g k user_age).1 = pyChoice g (k + 1) risky_self_harm := by
        simp [sample_post_text, h1, hb1]
      have hm := pyChoice_mem g (k + 1) risky_self_harm (by decide)
      rw [he]
      exact ⟨by simp only [List.mem_append]; tauto,
        fun _ habs => (by decide : ∀ x ∈ risky_self_harm, x ∉ risky_substance) _ hm habs,
        fun hge => absurd h1 (by omega)⟩
    · by_cases hb2 : g k % 1000000 < 300000
      · have he : (sample_post_text g k user_age).1 = pyChoice g (k + 1) risky_bully := by
          simp [sample_post_text, h1, hb1, hb2]
        have hm := pyChoice_mem g (k + 1) risky_bully (by decide)
        rw [he]
        exact ⟨by simp only [List.mem_append]; tauto,
          fun _ habs => (by decide : ∀ x ∈ risky_bully, x ∉ risky_substance) _ hm habs,
          fun hge => absurd h1 (by omega)⟩
      · by_cases hb3 : g k % 1000000 < 400000
        · have he : (sample_post_text g k user_age).1 = pyChoice g (k + 1) risky_grooming := by
            simp [sample_post_text, h1, hb1, hb2, hb3]
          have hm := pyChoice_mem g (k + 1) risky_grooming (by decide)
          rw [he]
          exact ⟨by simp only [List.mem_append]; tauto,
            fun _ habs => (by decide : ∀ x ∈ risky_grooming, x ∉ risky_substance) _ hm habs,
            fun hge => absurd h1 (by omega)⟩
        · have he : (sample_post_text g k user_age).1 = pyChoice g (k + 1) safe_pool := by
            simp [sample_post_text, h1, hb1, hb2, hb3]
          have hm := pyChoice_mem g (k + 1) safe_pool (by decide)
          rw [he]
          exact ⟨by simp only [List.mem_append]; tauto,
            fun _ habs => (by decide : ∀ x ∈ safe_pool, x ∉ risky_substance) _ hm habs,
            fun hge => absurd h1 (by omega)⟩
  · by_cases hb1 : g k % 1000000 < 150000
    · have he : (sample_post_text g k user_age).1 = pyChoice g (k + 1) risky_substance := by
        simp [sample_post_text, h1, hb1]
      have hm := pyChoice_mem g (k + 1) risky_substance (by decide)
      rw [he]
      exact ⟨by simp only [List.mem_append]; tauto, fun hlt => absurd hlt h1,
        fun _ habs => (by decide : ∀ x ∈ risky_substance, x ∉ risky_self_harm) _ hm habs⟩
    · by_cases hb2 : g k % 1000000 < 300000
      · have he : (sample_post_text g k user_age).1 = pyChoice g (k + 1) risky_grooming := by
          simp [sample_post_text, h1, hb1, hb2]
        have hm := pyChoice_mem g (k + 1) risky_grooming (by decide)
        rw [he]
        exact ⟨by simp only [List.mem_append]; tauto, fun hlt => absurd hlt h1,
          fun _ habs => (by decide : ∀ x ∈ risky_grooming, x ∉ risky_self_harm) _ hm habs⟩
      · by_cases hb3 : g k % 1000000 < 400000
        · have he : (sample_post_text g k user_age).1 = pyChoice g (k + 1) risky_bully := by
            simp [sample_post_text, h1, hb1, hb2, hb3]
          have hm := pyChoice_mem g (k + 1) risky_bully (by decide)
          rw [he]
          exact ⟨by simp only [List.mem_append]; tauto, fun hlt => absurd hlt h1,
            fun _ habs => (by decide : ∀ x ∈ risky_bully, x ∉ risky_self_harm) _ hm habs⟩
        · have he : (sample_post_text g k user_age).1 = pyChoice g (k + 1) safe_pool := by
            simp [sample_post_text, h1, hb1, hb2, hb3]
          have hm := pyChoice_mem g (k + 1) safe_pool (by decide)
          rw [he]
          exact ⟨by simp only [List.mem_append]; tauto, fun hlt => absurd hlt h1,
            fun _ habs => (by decide : ∀ x ∈ safe_pool, x ∉ risky_self_harm) _ hm habs⟩

/-- C10 witness: a 13-year-old user's draw avoids the substance pool and
a 21-year-old user's draw avoids the self-harm pool. -/
theorem c10_witness :
    (sample_post_text (fun _ => 0) 0 13).1 ∈
      risky_self_harm ++ risky_bully ++ risky_grooming ++ risky_substance ++ safe_pool ∧
    (sample_post_text (fun _ => 0) 0 13).1 ∉ risky_substance ∧
    (sample_post_text (fun _ => 0) 0 21).1 ∉ risky_self_harm :=
  ⟨(c10_sample_post_text_partition (fun _ => 0) 0 13).1,
    (c10_sample_post_text_partition (fun _ => 0) 0 13).2.1 (by decide),
    (c10_sample_post_text_partition (fun _ => 0) 0 21).2.2 (by decide)⟩
